import Mathlib

/-!
Shallow embedding of the stateful tool-dispatch and session-state layer of
the multi-tool agent demo (src/multi_tool_agent/agent.py), together with
theorems settling the specification claims about it.

Modelling conventions:
* Python dictionaries used as the per-session state bag become association
  lists (`StateBag`), with lookup (`stGet`), defaulted lookup, and in-place
  update (`stSet`) mirroring Python dict semantics (first matching key wins,
  assignment overwrites in place or appends).
* Python string operations (`lower`, `upper`, `capitalize`,
  `replace(" ", "")`, the `in` substring test, and `"%.0f"` formatting) are
  translated for the ASCII strings this program manipulates.
* Temperatures are modelled as exact fractions (`PyNum`); the table values
  and the Fahrenheit conversion are exactly representable, and `"%.0f"`
  formatting is round-half-to-even to an integer, matching Python float
  formatting on every value reachable from the fixed weather table.
* Tool handlers that return Python dicts return `ToolVal.dict`; handlers
  that return bare strings return `String` (wrapped as `ToolVal.str` where a
  claim compares shapes across handlers).
* The external time-zone database is modelled by the list of IANA
  identifiers this program references; `ZoneInfo` returns `none` for an
  identifier outside it, standing for the exception the Python constructor
  would raise. The current wall-clock time is an abstract parameter
  `now_strftime : ZoneInfoT → String`.
-/

/-- Values storable in the per-session state bag: the program stores strings
(unit preference, last city) and booleans (guardrail flag). -/
inductive StateVal where
  | str : String → StateVal
  | bool : Bool → StateVal
  deriving DecidableEq, Repr

/-- The session state bag: a Python dict from string keys to values,
modelled as an association list in insertion order. -/
abbrev StateBag := List (String × StateVal)

/-- Lookup in an association list by string key (first match), as Python
dict lookup. -/
def lookupStr {α : Type} (l : List (String × α)) (k : String) : Option α :=
  (l.find? (fun p => p.1 == k)).map (fun p => p.2)

/-- Optional lookup in the state bag. -/
def stGet? (st : StateBag) (k : String) : Option StateVal :=
  lookupStr st k

/-- Defaulted lookup, as Python `dict.get(key, default)`. -/
def stGet (st : StateBag) (k : String) (dflt : StateVal) : StateVal :=
  (stGet? st k).getD dflt

/-- Assignment, as Python `dict[key] = value`: overwrite in place if the key
is present, else append. -/
def stSet : StateBag → String → StateVal → StateBag
  | [], k, v => [(k, v)]
  | (k2, v2) :: rest, k, v =>
      if k2 = k then (k, v) :: rest else (k2, v2) :: stSet rest k v

/-- Python `str.lower()` for ASCII strings. -/
def pyLower (s : String) : String := String.mk (s.data.map Char.toLower)

/-- Python `str.upper()` for ASCII strings. -/
def pyUpper (s : String) : String := String.mk (s.data.map Char.toUpper)

/-- Python `str.capitalize()` for ASCII strings: first character upper-cased,
the rest lower-cased. -/
def pyCapitalize (s : String) : String :=
  match s.data with
  | [] => ""
  | c :: rest => String.mk (Char.toUpper c :: rest.map Char.toLower)

/-- Python `str.replace(" ", "")`: remove every space character. -/
def pyStripSpaces (s : String) : String :=
  String.mk (s.data.filter (fun c => c != ' '))

/-- The normalization applied to every free-text lookup key in the program:
`key.lower().replace(" ", "")`. -/
def pyNormalize (s : String) : String :=
  pyStripSpaces (pyLower s)

/-- Helper for the substring test: does `sub` occur in the character list? -/
def containsAux (sub : List Char) : List Char → Bool
  | [] => sub.isEmpty
  | c :: rest => sub.isPrefixOf (c :: rest) || containsAux sub rest

/-- Python `sub in s` substring containment. -/
def pyContains (s sub : String) : Bool :=
  containsAux sub.data s.data

/-- Exact model of the Python float arithmetic the weather handler performs:
an unreduced fraction. Every value reachable here (integer table
temperatures and their Fahrenheit conversions) is exactly representable as
a small fraction, so this models the float computation without error. -/
structure PyNum where
  num : Int
  den : Int
  deriving DecidableEq, Repr

instance : OfNat PyNum n := ⟨{ num := n, den := 1 }⟩

instance : Mul PyNum := ⟨fun a b => { num := a.num * b.num, den := a.den * b.den }⟩

instance : Div PyNum := ⟨fun a b => { num := a.num * b.den, den := a.den * b.num }⟩

instance : Add PyNum := ⟨fun a b => { num := a.num * b.den + b.num * a.den, den := a.den * b.den }⟩

/-- Round a fraction to the nearest integer, ties to even, as Python
`"%.0f"` float formatting does. -/
def roundHalfEven (q : PyNum) : Int :=
  let n := if q.den < 0 then -q.num else q.num
  let d := if q.den < 0 then -q.den else q.den
  let f := n.fdiv d
  let r := n - f * d
  if 2 * r < d then f
  else if 2 * r > d then f + 1
  else if f % 2 = 0 then f else f + 1

/-- Python `f"{x:.0f}"` rendering of a temperature value. -/
def pyFormatF0 (q : PyNum) : String :=
  toString (roundHalfEven q)

/-- Runtime value returned by a tool handler: either a bare Python string
(greeting, farewell) or a dict with string values (the lookup handlers). -/
inductive ToolVal where
  | str : String → ToolVal
  | dict : List (String × String) → ToolVal
  deriving DecidableEq, Repr

/-- The two-shape tool-result contract from the spec: a dict whose `status`
is `"success"` with a `report` entry and no `error_message`, or `"error"`
with an `error_message` entry and no `report`. A bare string never has this
shape. -/
def isToolResultShape : ToolVal → Bool
  | ToolVal.str _ => false
  | ToolVal.dict entries =>
      (lookupStr entries "status" == some "success"
        && (lookupStr entries "report").isSome
        && (lookupStr entries "error_message").isNone)
      || (lookupStr entries "status" == some "error"
        && (lookupStr entries "error_message").isSome
        && (lookupStr entries "report").isNone)

/-- The `status` discriminator of a handler result, when it is a dict. -/
def statusOf : ToolVal → Option String
  | ToolVal.str _ => none
  | ToolVal.dict entries => lookupStr entries "status"

/-- One part of a message: `google.genai` parts carry optional text. -/
structure MsgPart where
  text : Option String
  deriving DecidableEq, Repr

/-- One message of the request history, with its role and parts. -/
structure Content where
  role : String
  parts : List MsgPart
  deriving DecidableEq, Repr

/-- The substitute response the guardrail returns, reduced to the fields the
program sets: a role and the text of its single part. -/
structure LlmResponse where
  role : String
  text : String
  deriving DecidableEq, Repr

/-- The scan loop of `block_keyword_guardrail` over the reversed history:
take the first message whose role is `"user"`, whose parts are non-empty,
and whose first part has truthy (non-empty) text; otherwise keep scanning
older messages. -/
def goLastUser : List Content → String
  | [] => ""
  | c :: rest =>
      if c.role = "user" then
        match c.parts with
        | [] => goLastUser rest
        | p :: _ =>
            match p.text with
            | some t => if t = "" then goLastUser rest else t
            | none => goLastUser rest
      else goLastUser rest

/-- The text the guardrail inspects: result of scanning the history from the
most recent message backwards, `""` when nothing qualifies. -/
def lastUserMessageText (contents : List Content) : String :=
  goLastUser contents.reverse

/-- The blocked keyword, `"BLOCK"`. -/
def keyword_to_block : String := "BLOCK"

/-- The canned substitute response produced on a block, naming the keyword. -/
def blockedLlmResponse : LlmResponse :=
  { role := "model"
    text := "I cannot process this request because it contains the blocked keyword \x27BLOCK\x27." }

/-- The guardrail `block_keyword_guardrail`: inspect the latest user message
text; when its upper-cased form contains `"BLOCK"`, set the session flag and
return the substitute response; otherwise return `none` (proceed) with the
state untouched. -/
def block_keyword_guardrail (contents : List Content) (st : StateBag) :
    Option LlmResponse × StateBag :=
  let last_user_message_text := lastUserMessageText contents
  if pyContains (pyUpper last_user_message_text) keyword_to_block then
    (some blockedLlmResponse,
     stSet st "guardrail_block_keyword_triggered" (StateVal.bool true))
  else
    (none, st)

/-- The greeting handler `say_hello`: Python `if name:` is truthy only for a
present, non-empty string. -/
def say_hello (name : Option String) : String :=
  match name with
  | some s => if s = "" then "Hello there!" else "Hello, " ++ s ++ "!"
  | none => "Hello there!"

/-- The farewell handler `say_goodbye`. -/
def say_goodbye : String :=
  "Goodbye! Have a great day."

/-- One row of the mock weather table: temperature in Celsius and a
condition string. -/
structure WeatherEntry where
  temp_c : PyNum
  condition : String
  deriving DecidableEq, Repr

/-- The fixed weather table `mock_weather_db`. -/
def mock_weather_db : List (String × WeatherEntry) :=
  [("newyork", { temp_c := 25, condition := "sunny" }),
   ("london", { temp_c := 15, condition := "cloudy" }),
   ("tokyo", { temp_c := 18, condition := "light rain" })]

/-- The success report string of the weather handler, as built by its
f-string: capitalized city, condition, `"%.0f"`-rendered temperature, unit. -/
def weatherReport (city condition : String) (temp_value : PyNum) (temp_unit : String) : String :=
  "The weather in " ++ pyCapitalize city ++ " is " ++ condition ++
    " with a temperature of " ++ pyFormatF0 temp_value ++ temp_unit ++ "."

/-- The stateful weather handler `get_weather_stateful`: read the unit
preference (default Celsius), normalize the city, look it up; on success
convert the temperature when the preference equals `"Fahrenheit"`, build the
report, and write the raw city under `last_city_checked_stateful`; on a miss
return an error dict naming the input and leave the state alone. -/
def get_weather_stateful (city : String) (st : StateBag) : ToolVal × StateBag :=
  let preferred_unit := stGet st "user_preference_temperature_unit" (StateVal.str "Celsius")
  let city_normalized := pyNormalize city
  match lookupStr mock_weather_db city_normalized with
  | some data =>
      let tv_tu : PyNum × String :=
        if preferred_unit = StateVal.str "Fahrenheit" then
          (data.temp_c * 9 / 5 + 32, "°F")
        else
          (data.temp_c, "°C")
      let report := weatherReport city data.condition tv_tu.1 tv_tu.2
      (ToolVal.dict [("status", "success"), ("report", report)],
       stSet st "last_city_checked_stateful" (StateVal.str city))
  | none =>
      (ToolVal.dict [("status", "error"),
        ("error_message",
          "Sorry, I don\x27t have weather information for \x27" ++ city ++ "\x27.")],
       st)

/-- A constructed time-zone object, carrying its IANA key. -/
structure ZoneInfoT where
  key : String
  deriving DecidableEq, Repr

/-- Model of the external IANA time-zone database, restricted to the
identifiers this program references: the set of keys for which `ZoneInfo`
construction succeeds. -/
def tzdb_known_keys : List String :=
  ["America/New_York", "Europe/London", "Asia/Tokyo",
   "America/Chicago", "America/Denver", "Australia/Sydney"]

/-- The `ZoneInfo` constructor: succeeds on a known key, and `none` stands
for the exception raised on an unknown one. -/
def ZoneInfo (k : String) : Option ZoneInfoT :=
  if tzdb_known_keys.contains k then some { key := k } else none

/-- The fixed time-zone table `mock_timezone_db`. -/
def mock_timezone_db : List (String × String) :=
  [("newyork", "America/New_York"),
   ("london", "Europe/London"),
   ("tokyo", "Asia/Tokyo"),
   ("dallas", "America/Chicago"),
   ("denver", "America/Denver"),
   ("sydney", "Australia/Sydney")]

/-- The time handler `get_current_time`, parametric in the wall clock
(`now_strftime tz` is the formatted current time in zone `tz`). The outer
`Option` is `none` exactly when an exception would escape (an unknown zone
identifier reached `ZoneInfo`). -/
def get_current_time (city : String) (now_strftime : ZoneInfoT → String) : Option ToolVal :=
  let city_normalized := pyNormalize city
  match lookupStr mock_timezone_db city_normalized with
  | some tz_identifier =>
      (ZoneInfo tz_identifier).map (fun tz =>
        ToolVal.dict [("status", "success"),
          ("report", "The current time in " ++ city ++ " is " ++ now_strftime tz)])
  | none =>
      some (ToolVal.dict [("status", "error"),
        ("error_message",
          "Sorry, I don\x27t have timezone information for " ++ city ++ ".")])

/-- The fixed student-id table `mock_id_db`. -/
def mock_id_db : List (String × Int) :=
  [("frodo", 1001), ("gandalf", 2), ("saruman", 1), ("bilbo", 1000)]

/-- The identity handler `get_student_id`. -/
def get_student_id (name : String) : ToolVal :=
  let name_normalized := pyNormalize name
  match lookupStr mock_id_db name_normalized with
  | some id =>
      ToolVal.dict [("status", "success"),
        ("report", "The student ID for " ++ name ++ " is " ++ toString id ++ ".")]
  | none =>
      ToolVal.dict [("status", "error"),
        ("error_message",
          "Sorry, I don\x27t have studentId information for " ++ name ++ ".")]

/-- Writing a key and reading it back yields the written value. -/
theorem stGet?_stSet (st : StateBag) (k : String) (v : StateVal) :
    stGet? (stSet st k v) k = some v := by
  induction st with
  | nil => simp [stSet, stGet?, lookupStr]
  | cons p rest ih =>
      by_cases h : p.1 = k
      · simp [stSet, h, stGet?, lookupStr]
      · simpa [stSet, h, stGet?, lookupStr] using ih

/-- Every value of the time-zone table is a key known to the time-zone
database model. -/
theorem tz_values_known (k tz : String)
    (h : lookupStr mock_timezone_db k = some tz) :
    tzdb_known_keys.contains tz = true := by
  have hall : ∀ p ∈ mock_timezone_db, tzdb_known_keys.contains p.2 = true := by decide
  unfold lookupStr at h
  cases hf : List.find? (fun p => p.1 == k) mock_timezone_db with
  | none => simp [hf] at h
  | some p =>
      simp [hf] at h
      exact h ▸ hall p (List.mem_of_find?_eq_some hf)

/-- C10: the greeting handler treats an empty name like an absent one —
both yield the fixed generic greeting — and a non-empty name yields
`"Hello, {name}!"` embedding that exact name. -/
theorem say_hello_name_handling :
    say_hello (some "") = "Hello there!" ∧
    say_hello none = "Hello there!" ∧
    ∀ s : String, s ≠ "" → say_hello (some s) = "Hello, " ++ s ++ "!" := by
  refine ⟨rfl, rfl, fun s hs => ?_⟩
  simp [say_hello, hs]

/-- Witness for C10 at the concrete non-empty name `"Alice"`. -/
theorem say_hello_name_handling_witness :
    say_hello (some "Alice") = "Hello, " ++ "Alice" ++ "!" :=
  say_hello_name_handling.2.2 "Alice" (by decide)

/-- C2 counterexample: the greeting handler returns a bare string, not a
status mapping — at the concrete input `name = none` it returns
`"Hello there!"`, which fails the two-shape mapping contract, so the claim
that every handler (including greeting and farewell) returns such a
mapping is false. -/
theorem say_hello_result_not_mapping :
    ToolVal.str (say_hello none) = ToolVal.str "Hello there!" ∧
    isToolResultShape (ToolVal.str (say_hello none)) = false :=
  ⟨rfl, rfl⟩

/-- C2 (amended): the three lookup handlers (weather, time, identity)
always return a mapping with the `status`/`report`/`error_message`
two-shape contract; the greeting and farewell handlers instead return bare
strings, which never have that shape. -/
theorem tool_result_shapes :
    (∀ city st, isToolResultShape (get_weather_stateful city st).1 = true) ∧
    (∀ city now r, get_current_time city now = some r → isToolResultShape r = true) ∧
    (∀ name, isToolResultShape (get_student_id name) = true) ∧
    (∀ name, isToolResultShape (ToolVal.str (say_hello name)) = false) ∧
    isToolResultShape (ToolVal.str say_goodbye) = false := by
  refine ⟨fun city st => ?_, fun city now r h => ?_, fun name => ?_, fun name => rfl, rfl⟩
  · cases hl : lookupStr mock_weather_db (pyNormalize city) with
    | none => simp only [get_weather_stateful, hl]; rfl
    | some d => simp only [get_weather_stateful, hl]; rfl
  · cases hl : lookupStr mock_timezone_db (pyNormalize city) with
    | none =>
        simp [get_current_time, hl] at h
        subst h; rfl
    | some tz =>
        cases hz : ZoneInfo tz with
        | none => simp [get_current_time, hl, hz] at h
        | some z =>
            simp [get_current_time, hl, hz] at h
            subst h; rfl
  · cases hl : lookupStr mock_id_db (pyNormalize name) with
    | none => simp only [get_student_id, hl]; rfl
    | some id => simp only [get_student_id, hl]; rfl

/-- Witness for C2 (amended): the time handler result at the concrete city
`"London"` satisfies the shape contract. -/
theorem tool_result_shapes_witness :
    isToolResultShape (ToolVal.dict [("status", "success"),
      ("report", "The current time in London is 12:00")]) = true :=
  tool_result_shapes.2.1 "London" (fun _ => "12:00")
    (ToolVal.dict [("status", "success"),
      ("report", "The current time in London is 12:00")]) (by decide)

/-- C9: a weather lookup on an unsupported city returns an error result and
leaves the session state bag entirely unchanged — the
`last_city_checked_stateful` write happens only on the success branch. -/
theorem weather_error_preserves_state (city : String) (st : StateBag)
    (h : lookupStr mock_weather_db (pyNormalize city) = none) :
    (get_weather_stateful city st).2 = st ∧
    statusOf (get_weather_stateful city st).1 = some "error" := by
  simp only [get_weather_stateful, h]
  exact ⟨trivial, rfl⟩

/-- Witness for C9 at the concrete unsupported city `"Paris"`. -/
theorem weather_error_preserves_state_witness :
    (get_weather_stateful "Paris"
      [("user_preference_temperature_unit", StateVal.str "Celsius")]).2 =
      [("user_preference_temperature_unit", StateVal.str "Celsius")] ∧
    statusOf (get_weather_stateful "Paris"
      [("user_preference_temperature_unit", StateVal.str "Celsius")]).1 = some "error" :=
  weather_error_preserves_state "Paris"
    [("user_preference_temperature_unit", StateVal.str "Celsius")] (by decide)

/-- C4 counterexample: a successful weather lookup (here for `"London"`)
does not write the key `last_city_checked` — the key it writes is
`last_city_checked_stateful` — so after a success from a state without the
key, `last_city_checked` is still absent. -/
theorem last_city_checked_key_not_written :
    statusOf (get_weather_stateful "London"
      [("user_preference_temperature_unit", StateVal.str "Celsius")]).1 = some "success" ∧
    stGet? (get_weather_stateful "London"
      [("user_preference_temperature_unit", StateVal.str "Celsius")]).2
      "last_city_checked" = none := by
  decide

/-- C4 (amended): for every supported city, a successful weather lookup
writes the queried city into the session state bag under the key
`last_city_checked_stateful`. -/
theorem success_writes_last_city_checked_stateful (city : String) (st : StateBag)
    (d : WeatherEntry) (h : lookupStr mock_weather_db (pyNormalize city) = some d) :
    stGet? (get_weather_stateful city st).2 "last_city_checked_stateful" =
      some (StateVal.str city) := by
  simp only [get_weather_stateful, h]
  exact stGet?_stSet st _ _

/-- Witness for C4 (amended) at the concrete city `"Tokyo"`. -/
theorem success_writes_last_city_checked_stateful_witness :
    stGet? (get_weather_stateful "Tokyo" []).2 "last_city_checked_stateful" =
      some (StateVal.str "Tokyo") :=
  success_writes_last_city_checked_stateful "Tokyo" []
    { temp_c := 18, condition := "light rain" } (by decide)

/-- C1: for every pending model invocation, when the upper-cased text of
the inspected latest user message contains `"BLOCK"` the guardrail writes
`guardrail_block_keyword_triggered := true` into the session state and
returns the substitute response — whose text names the keyword —
suppressing the model call; when it does not, the guardrail returns `none`
(no interception) and leaves the session state unchanged. -/
theorem guardrail_blocks_iff_keyword (contents : List Content) (st : StateBag) :
    (pyContains (pyUpper (lastUserMessageText contents)) keyword_to_block = true →
      block_keyword_guardrail contents st =
        (some blockedLlmResponse,
         stSet st "guardrail_block_keyword_triggered" (StateVal.bool true)) ∧
      pyContains blockedLlmResponse.text keyword_to_block = true) ∧
    (pyContains (pyUpper (lastUserMessageText contents)) keyword_to_block = false →
      block_keyword_guardrail contents st = (none, st)) := by
  constructor
  · intro h
    exact ⟨by simp only [block_keyword_guardrail, h, if_true], by decide⟩
  · intro h
    simp only [block_keyword_guardrail, h, Bool.false_eq_true, if_false]

/-- Witness for C1: a concrete message containing the keyword is blocked
with the flag set, and a concrete message without it passes untouched. -/
theorem guardrail_blocks_iff_keyword_witness :
    block_keyword_guardrail
      [{ role := "user", parts := [{ text := some "please BLOCK this" }] }] [] =
      (some blockedLlmResponse,
       [("guardrail_block_keyword_triggered", StateVal.bool true)]) ∧
    block_keyword_guardrail
      [{ role := "user", parts := [{ text := some "hello there" }] }] [] = (none, []) :=
  ⟨((guardrail_blocks_iff_keyword
      [{ role := "user", parts := [{ text := some "please BLOCK this" }] }] []).1
      (by decide)).1,
   (guardrail_blocks_iff_keyword
      [{ role := "user", parts := [{ text := some "hello there" }] }] []).2
      (by decide)⟩

/-- C5 counterexample: in this concrete history the latest user-authored
message carries no text (its only part has `text = none`), so the scan
falls through to the EARLIER user message, whose keyword causes a block —
refuting the claim that a keyword in an earlier message of the history
never causes a block. -/
theorem earlier_message_keyword_blocks :
    lastUserMessageText
      [{ role := "user", parts := [{ text := some "please BLOCK this request" }] },
       { role := "user", parts := [{ text := none }] }] = "please BLOCK this request" ∧
    block_keyword_guardrail
      [{ role := "user", parts := [{ text := some "please BLOCK this request" }] },
       { role := "user", parts := [{ text := none }] }] [] =
      (some blockedLlmResponse,
       [("guardrail_block_keyword_triggered", StateVal.bool true)]) := by
  decide

/-- C5 (amended): the guardrail inspects only the single most recent
user-authored message whose first part carries non-empty text; whenever the
most recent user message does carry such text, all earlier history is
ignored — a keyword in an earlier message causes a block only when every
later user message lacks first-part text. -/
theorem guardrail_ignores_earlier_history (contents : List Content) (st : StateBag)
    (t : String) (ht : t ≠ "")
    (hb : pyContains (pyUpper t) keyword_to_block = false) :
    block_keyword_guardrail
      (contents ++ [{ role := "user", parts := [{ text := some t }] }]) st =
      (none, st) := by
  have hl : lastUserMessageText
      (contents ++ [{ role := "user", parts := [{ text := some t }] }]) = t := by
    simp only [lastUserMessageText, List.reverse_append, List.reverse_cons,
      List.reverse_nil, List.nil_append, List.cons_append, goLastUser, if_pos rfl]
    simp [ht]
  simp only [block_keyword_guardrail, hl, hb, Bool.false_eq_true, if_false]

/-- Witness for C5 (amended): the earlier message contains the keyword, the
latest user message has non-empty keyword-free text, and the guardrail does
not intercept. -/
theorem guardrail_ignores_earlier_history_witness :
    block_keyword_guardrail
      [{ role := "user", parts := [{ text := some "please BLOCK this" }] },
       { role := "user", parts := [{ text := some "hello again" }] }] [] = (none, []) :=
  guardrail_ignores_earlier_history
    [{ role := "user", parts := [{ text := some "please BLOCK this" }] }] []
    "hello again" (by decide) (by decide)

/-- C3 counterexample: `"New York"` and `"newyork"` normalize to the same
key, yet under the same session state the weather handler returns different
results — the success report capitalizes the raw input (`"New york"`
versus `"Newyork"`) — refuting the claim that such lookups yield identical
results. -/
theorem same_normalized_key_different_results :
    pyNormalize "New York" = pyNormalize "newyork" ∧
    (get_weather_stateful "New York"
      [("user_preference_temperature_unit", StateVal.str "Celsius")]).1 ≠
    (get_weather_stateful "newyork"
      [("user_preference_temperature_unit", StateVal.str "Celsius")]).1 := by
  decide

/-- C3 (amended): two inputs with the same normalized key drive every
lookup handler into the same branch with the same table entry — the weather
table row consulted and the status discriminators of all three lookup
handlers coincide — although the report and error texts (and the state
write) embed the raw input and so may differ in wording. -/
theorem same_normalized_key_same_branch (c1 c2 : String)
    (h : pyNormalize c1 = pyNormalize c2) (st : StateBag)
    (now : ZoneInfoT → String) :
    lookupStr mock_weather_db (pyNormalize c1) =
      lookupStr mock_weather_db (pyNormalize c2) ∧
    statusOf (get_weather_stateful c1 st).1 =
      statusOf (get_weather_stateful c2 st).1 ∧
    (get_current_time c1 now).map statusOf =
      (get_current_time c2 now).map statusOf ∧
    statusOf (get_student_id c1) = statusOf (get_student_id c2) := by
  refine ⟨by rw [h], ?_, ?_, ?_⟩
  · simp only [get_weather_stateful, h]
    cases lookupStr mock_weather_db (pyNormalize c2) <;> rfl
  · cases hl : lookupStr mock_timezone_db (pyNormalize c2) with
    | none => simp only [get_current_time, h, hl]; rfl
    | some tz =>
        simp only [get_current_time, h, hl]
        cases ZoneInfo tz <;> rfl
  · simp only [get_student_id, h]
    cases lookupStr mock_id_db (pyNormalize c2) <;> rfl

/-- Witness for C3 (amended) at the concrete pair `"New York"` and
`"NEW YORK"`. -/
theorem same_normalized_key_same_branch_witness :
    statusOf (get_weather_stateful "New York" []).1 =
      statusOf (get_weather_stateful "NEW YORK" []).1 :=
  (same_normalized_key_same_branch "New York" "NEW YORK" (by decide) []
    (fun _ => "")).2.1

/-- C6: for every supported city, the weather report renders the
temperature converted by °F = °C×9/5+32 when the session state holds
`"Fahrenheit"` under `user_preference_temperature_unit`, and renders the
stored Celsius value in every other case, including when the key is
absent. -/
theorem weather_report_unit_conversion (city : String) (st : StateBag)
    (d : WeatherEntry) (h : lookupStr mock_weather_db (pyNormalize city) = some d) :
    (stGet? st "user_preference_temperature_unit" = some (StateVal.str "Fahrenheit") →
      (get_weather_stateful city st).1 = ToolVal.dict [("status", "success"),
        ("report", weatherReport city d.condition (d.temp_c * 9 / 5 + 32) "°F")]) ∧
    (stGet? st "user_preference_temperature_unit" ≠ some (StateVal.str "Fahrenheit") →
      (get_weather_stateful city st).1 = ToolVal.dict [("status", "success"),
        ("report", weatherReport city d.condition d.temp_c "°C")]) := by
  constructor
  · intro hp
    have hu : stGet st "user_preference_temperature_unit" (StateVal.str "Celsius") =
        StateVal.str "Fahrenheit" := by
      simp [stGet, hp]
    simp only [get_weather_stateful, h, hu, if_pos]
  · intro hp
    have hu : stGet st "user_preference_temperature_unit" (StateVal.str "Celsius") ≠
        StateVal.str "Fahrenheit" := by
      unfold stGet
      cases hq : stGet? st "user_preference_temperature_unit" with
      | none => simp
      | some v =>
          simp only [Option.getD_some]
          intro hv
          exact hp (by rw [hq, hv])
    simp only [get_weather_stateful, h, if_neg hu]

/-- Witness for C6 at the concrete city `"Tokyo"` under each preference:
Fahrenheit renders 18×9/5+32, and an absent key renders the Celsius 18. -/
theorem weather_report_unit_conversion_witness :
    (get_weather_stateful "Tokyo"
      [("user_preference_temperature_unit", StateVal.str "Fahrenheit")]).1 =
      ToolVal.dict [("status", "success"),
        ("report", weatherReport "Tokyo" "light rain" ((18 : PyNum) * 9 / 5 + 32) "°F")] ∧
    (get_weather_stateful "Tokyo" []).1 =
      ToolVal.dict [("status", "success"),
        ("report", weatherReport "Tokyo" "light rain" (18 : PyNum) "°C")] :=
  ⟨(weather_report_unit_conversion "Tokyo"
      [("user_preference_temperature_unit", StateVal.str "Fahrenheit")]
      { temp_c := 18, condition := "light rain" } (by decide)).1 (by decide),
   (weather_report_unit_conversion "Tokyo" []
      { temp_c := 18, condition := "light rain" } (by decide)).2 (by decide)⟩

/-- C7: for every input whose normalized key is absent from a lookup
handler's fixed table, that handler returns (never raises — the time
handler's result is `some`) an error mapping whose message embeds the
rejected raw input. -/
theorem lookup_miss_error_names_input (x : String) (st : StateBag)
    (now : ZoneInfoT → String) :
    (lookupStr mock_weather_db (pyNormalize x) = none →
      (get_weather_stateful x st).1 = ToolVal.dict [("status", "error"),
        ("error_message",
          "Sorry, I don\x27t have weather information for \x27" ++ x ++ "\x27.")]) ∧
    (lookupStr mock_timezone_db (pyNormalize x) = none →
      get_current_time x now = some (ToolVal.dict [("status", "error"),
        ("error_message",
          "Sorry, I don\x27t have timezone information for " ++ x ++ ".")])) ∧
    (lookupStr mock_id_db (pyNormalize x) = none →
      get_student_id x = ToolVal.dict [("status", "error"),
        ("error_message",
          "Sorry, I don\x27t have studentId information for " ++ x ++ ".")]) := by
  refine ⟨fun h => ?_, fun h => ?_, fun h => ?_⟩
  · simp only [get_weather_stateful, h]
  · simp only [get_current_time, h]
  · simp only [get_student_id, h]

/-- Witness for C7 at the concrete unknown input `"Atlantis"`. -/
theorem lookup_miss_error_names_input_witness :
    get_student_id "Atlantis" = ToolVal.dict [("status", "error"),
      ("error_message",
        "Sorry, I don\x27t have studentId information for " ++ "Atlantis" ++ ".")] :=
  (lookup_miss_error_names_input "Atlantis" [] (fun _ => "")).2.2 (by decide)

/-- C8: every tool handler is total over its declared input type. The only
modelled failure channel is the time handler's zone construction (an
unknown identifier would raise), and its result is `some` for every input
because every value of the time-zone table is a known zone key; the
remaining handlers are total functions whose evaluation always produces a
value. -/
theorem handlers_total (city name : String) (nameOpt : Option String)
    (st : StateBag) (now : ZoneInfoT → String) :
    (get_current_time city now).isSome = true ∧
    (∃ r, get_weather_stateful city st = r) ∧
    (∃ r, get_student_id name = r) ∧
    (∃ r, say_hello nameOpt = r) ∧
    (∃ r, say_goodbye = r) := by
  refine ⟨?_, ⟨_, rfl⟩, ⟨_, rfl⟩, ⟨_, rfl⟩, ⟨_, rfl⟩⟩
  cases hl : lookupStr mock_timezone_db (pyNormalize city) with
  | none => simp only [get_current_time, hl]; rfl
  | some tz =>
      have hk : tzdb_known_keys.contains tz = true :=
        tz_values_known (pyNormalize city) tz hl
      simp only [get_current_time, hl, ZoneInfo, hk, if_pos]
      rfl
